import Mathlib

/-!
Verification of `scripts/jetski_tracker_integration.py`.

This file shallowly embeds the script's core: the per-source fetch
functions with their fallback chains, the block-withholding scorer, the
snapshot builder `fetch_all`, the threat-tier thresholds of `main`, and
the exception behaviour of the watch loop.  Python floats are modelled
as exact rationals, Python ints as `ℤ`.  Each HTTP call is modelled by
the outcome the script can observe: a raised exception, or a completed
response with a status code and the parsed fields the function reads.
Python's `%` on a positive modulus agrees with `Int.emod`, which is how
the seed offset is embedded.
-/

namespace Jetski

/-- Outcome of one HTTP GET as the script observes it.  `err` is any
raised exception (timeout, transport error, or a body whose parsing
raises); `ok status body` is a completed response carrying its status
code and the parsed fields the caller reads, with `none` standing for a
field that a `dict.get`-style lookup finds missing. -/
inductive HttpResult (β : Type) where
  | err : HttpResult β
  | ok (status : Nat) (body : β) : HttpResult β
deriving DecidableEq

/-- Embeds the fallback tail of `fetch_network_hashrate` (lines 78-87):
the miningpoolstats fallback returns the placeholder 4.97 on a 200
response, and every other outcome falls through to the constant 4.97. -/
def fallback_hashrate : HttpResult Unit → ℚ
  | .err => 4.97
  | .ok s _ => if s = 200 then 4.97 else 4.97

/-- Embeds `fetch_network_hashrate` (lines 67-87): a 200 response from the
primary endpoint yields the `hashrate_ghs` field (defaulting to 4.97 when
the field is missing); any other outcome falls through to the fallback
chain. -/
def fetch_network_hashrate (primary : HttpResult (Option ℚ)) (fb : HttpResult Unit) : ℚ :=
  match primary with
  | .ok 200 body => body.getD 4.97
  | _ => fallback_hashrate fb

/-- Embeds `fetch_orphaned_blocks` (lines 89-98): a 200 response yields the
`orphaned_24h` field with `.get` default 0; an exception or any other
status returns the conservative default 0. -/
def fetch_orphaned_blocks : HttpResult (Option ℤ) → ℤ
  | .err => 0
  | .ok s body => if s = 200 then body.getD 0 else 0

/-- The hard-coded post-attack baseline distribution of
`fetch_pool_distribution` (lines 111-117). -/
def baseline_distribution : List (String × ℚ) :=
  [("Qubic", 0.15), ("MineXMR", 0.20), ("SupportXMR", 0.18),
   ("Hashvault", 0.12), ("Others", 0.35)]

/-- Embeds `fetch_pool_distribution` (lines 100-117): a 200 response yields
the parsed `pools` list as-is (the empty list when the field is missing,
mirroring `data.get('pools', [])`); an exception or any other status
returns the baseline distribution. -/
def fetch_pool_distribution : HttpResult (Option (List (String × ℚ))) → List (String × ℚ)
  | .err => baseline_distribution
  | .ok s body => if s = 200 then body.getD [] else baseline_distribution

/-- Embeds `fetch_xmr_price` (lines 119-128): a 200 response yields
`data['monero']['usd']`; a missing field raises, which like every other
failure returns the default 167.0. -/
def fetch_xmr_price : HttpResult (Option ℚ) → ℚ
  | .err => 167.0
  | .ok s body =>
    if s = 200 then
      match body with
      | some p => p
      | none => 167.0
    else 167.0

/-- Python's `max(l, default=d)`: the maximum element of `l`, or `d` when
`l` is empty. -/
def max_default (l : List ℤ) (d : ℤ) : ℤ :=
  match l with
  | [] => d
  | x :: xs => xs.foldl max x

/-- Embeds `fetch_latest_reorg` (lines 152-162): a 200 response yields
`max([r['depth'] for r in reorgs], default=0)` over the parsed `reorgs`
list (empty when the field is missing); every failure returns 0. -/
def fetch_latest_reorg : HttpResult (Option (List ℤ)) → ℤ
  | .err => 0
  | .ok s body => if s = 200 then max_default (body.getD []) 0 else 0

/-- Line 139: `orphan_score = min(orphaned_blocks / 20.0, 1.0)`. -/
def orphan_score (orphaned_blocks : ℤ) : ℚ :=
  min ((orphaned_blocks : ℚ) / 20.0) 1.0

/-- Line 143: `concentration_score = max(0, (max_pool_share - 0.3) / 0.2)`. -/
def concentration_score (max_pool_share : ℚ) : ℚ :=
  max 0 ((max_pool_share - 0.3) / 0.2)

/-- Line 149: `seed_offset = (self.seed % 100) / 10000.0`.  Python's `%`
with positive modulus matches `Int.emod`. -/
def seed_offset (seed : ℤ) : ℚ :=
  ((seed % 100 : ℤ) : ℚ) / 10000.0

/-- Line 142: `max(share for _, share in pool_dist)`, which raises
`ValueError` (here `none`) on an empty distribution. -/
def max_pool_share : List (String × ℚ) → Option ℚ
  | [] => none
  | p :: rest => some (rest.foldl (fun m q => max m q.2) p.2)

/-- Embeds `calculate_withholding_score` (lines 130-150).  `none` models
the `ValueError` that `max` raises on an empty pool distribution; on a
non-empty distribution the result is
`min(orphan_score*0.7 + concentration_score*0.3 + seed_offset, 1.0)`. -/
def calculate_withholding_score (seed : ℤ) (orphaned_blocks : ℤ)
    (pool_dist : List (String × ℚ)) : Option ℚ :=
  match max_pool_share pool_dist with
  | none => none
  | some maxShare =>
    let combined := orphan_score orphaned_blocks * 0.7 + concentration_score maxShare * 0.3
    some (min (combined + seed_offset seed) 1.0)

/-- Line 175: `next((share for name, share in pool_distribution if "Qubic"
in name), 0.0)` — the share of the first entry whose name contains
"Qubic" as a case-sensitive substring, else 0.0. -/
def qubic_share (dist : List (String × ℚ)) : ℚ :=
  match dist.find? (fun p => decide ("Qubic".toList <:+: p.1.toList)) with
  | some p => p.2
  | none => 0.0

/-- Mirror of the `JetskiTrackerData` dataclass (lines 25-35). -/
structure JetskiTrackerData where
  network_hashrate : ℚ
  qubic_hashrate : ℚ
  orphaned_blocks : ℤ
  block_withholding_score : ℚ
  pool_distribution : List (String × ℚ)
  last_reorg_depth : ℤ
  timestamp : ℚ
  xmr_price : ℚ
deriving DecidableEq

/-- The outcome of each of the six HTTP GETs one `fetch_all` tick issues
(the network-hashrate source has a primary and a fallback endpoint). -/
structure FetchOutcomes where
  hashratePrimary : HttpResult (Option ℚ)
  hashrateFallback : HttpResult Unit
  orphaned : HttpResult (Option ℤ)
  pools : HttpResult (Option (List (String × ℚ)))
  reorgs : HttpResult (Option (List ℤ))
  price : HttpResult (Option ℚ)

/-- Embeds `fetch_all` (lines 164-193): runs every fetcher on its outcome,
derives the Qubic hashrate from the pool distribution, and scores
withholding.  `none` models the uncaught `ValueError` raised by the
scorer when the pool distribution is empty, in which case no
`JetskiTrackerData` is constructed. -/
def fetch_all (seed : ℤ) (out : FetchOutcomes) (now : ℚ) : Option JetskiTrackerData :=
  let network_hashrate := fetch_network_hashrate out.hashratePrimary out.hashrateFallback
  let pool_distribution := fetch_pool_distribution out.pools
  let orphaned_blocks := fetch_orphaned_blocks out.orphaned
  (calculate_withholding_score seed orphaned_blocks pool_distribution).map
    (fun withholding_score =>
      { network_hashrate := network_hashrate
        qubic_hashrate := network_hashrate * qubic_share pool_distribution
        orphaned_blocks := orphaned_blocks
        block_withholding_score := withholding_score
        pool_distribution := pool_distribution
        last_reorg_depth := fetch_latest_reorg out.reorgs
        timestamp := now
        xmr_price := fetch_xmr_price out.price })

/-- The threat-tier thresholds printed by `main` (lines 229-236). -/
inductive ThreatTier where
  | critical : ThreatTier
  | high : ThreatTier
  | moderate : ThreatTier
  | low : ThreatTier
deriving DecidableEq

/-- Embeds the threat assessment of `main` (lines 229-236): CRITICAL above
0.85, HIGH above 0.6, MODERATE above 0.3, otherwise LOW. -/
def threat_tier (score : ℚ) : ThreatTier :=
  if score > 0.85 then .critical
  else if score > 0.6 then .high
  else if score > 0.3 then .moderate
  else .low

/-- What one iteration of the watch loop does, as the loop observes it:
the tick persists fine, the `open`/write raises `OSError`, or a
`KeyboardInterrupt` arrives during the tick. -/
inductive TickEvent where
  | persistOk : TickEvent
  | persistError : TickEvent
  | interrupted : TickEvent
deriving DecidableEq

/-- How the watch-mode `while True` ends. -/
inductive WatchOutcome where
  | running : WatchOutcome
  | stopped : WatchOutcome
  | crashed : WatchOutcome
deriving DecidableEq

/-- Embeds the watch-mode loop of `main` (lines 216-247): the `try` around
`while True` has `except KeyboardInterrupt` as its only handler, so an
interrupt stops the loop cleanly while an `OSError` raised when writing
the output file propagates uncaught and terminates the loop.  The event
list is the finite prefix of tick outcomes under observation; exhausting
it with neither exception leaves the loop running. -/
def watch_loop : List TickEvent → WatchOutcome
  | [] => .running
  | .persistOk :: rest => watch_loop rest
  | .persistError :: _ => .crashed
  | .interrupted :: _ => .stopped

/-- All six HTTP calls raise: every primary (and the one fallback)
endpoint is unavailable. -/
def all_sources_failed : FetchOutcomes :=
  { hashratePrimary := .err
    hashrateFallback := .err
    orphaned := .err
    pools := .err
    reorgs := .err
    price := .err }

end Jetski

namespace Jetski

/-- The snapshot that `fetch_all` builds when every HTTP call fails, with
every field at its last-resort default. -/
def snapshot_all_failed : JetskiTrackerData :=
  { network_hashrate := 4.97
    qubic_hashrate := 4.97 * 0.15
    orphaned_blocks := 0
    block_withholding_score := 0.0819
    pool_distribution := baseline_distribution
    last_reorg_depth := 0
    timestamp := 0
    xmr_price := 167.0 }

lemma qubic_share_baseline : qubic_share baseline_distribution = 0.15 := by
  simp +decide [qubic_share, baseline_distribution, List.find?]

lemma max_pool_share_baseline : max_pool_share baseline_distribution = some 0.35 := by
  norm_num [max_pool_share, baseline_distribution]

/-- C1 counterexample: with all five sources failing and seed 1069, the
score is 0.0819, not the seed offset 0.0069 alone, because the baseline
distribution's maximum share is 0.35 (the "Others" bucket), which makes
the concentration component 0.25 rather than 0. -/
theorem all_fail_score_not_seed_offset :
    fetch_all 1069 all_sources_failed 0 = some snapshot_all_failed ∧
    snapshot_all_failed.block_withholding_score = 0.0819 ∧
    seed_offset 1069 = 0.0069 ∧
    snapshot_all_failed.block_withholding_score ≠ seed_offset 1069 ∧
    concentration_score 0.35 = 0.25 ∧ (0.25 : ℚ) ≠ 0 := by
  refine ⟨?_, ?_, ?_, ?_, ?_, ?_⟩
  · simp [fetch_all, all_sources_failed, fetch_network_hashrate, fallback_hashrate,
      fetch_orphaned_blocks, fetch_pool_distribution, fetch_latest_reorg, fetch_xmr_price,
      calculate_withholding_score, max_pool_share_baseline, qubic_share_baseline,
      snapshot_all_failed]
    norm_num [orphan_score, concentration_score, seed_offset]
  · norm_num [snapshot_all_failed]
  · norm_num [seed_offset]
  · norm_num [snapshot_all_failed, seed_offset]
  · norm_num [concentration_score]
  · norm_num

/-- C1 amended: with all five sources failing, `fetch_all` still builds a
snapshot whose every field is its last-resort default; the baseline
distribution's maximum share is 0.35, so the concentration component is
0.25, the orphan component is 0, and the score is 0.075 plus the seed
offset. -/
theorem all_fail_snapshot_defaults :
    fetch_all 1069 all_sources_failed 0 = some
      { network_hashrate := 4.97
        qubic_hashrate := 4.97 * 0.15
        orphaned_blocks := 0
        block_withholding_score := 0.075 + seed_offset 1069
        pool_distribution := baseline_distribution
        last_reorg_depth := 0
        timestamp := 0
        xmr_price := 167.0 } ∧
    orphan_score 0 = 0 ∧ concentration_score 0.35 = 0.25 ∧
    max_pool_share baseline_distribution = some 0.35 ∧
    orphan_score 0 * 0.7 + concentration_score 0.35 * 0.3 = 0.075 := by
  refine ⟨?_, ?_, ?_, max_pool_share_baseline, ?_⟩
  · simp [fetch_all, all_sources_failed, fetch_network_hashrate, fallback_hashrate,
      fetch_orphaned_blocks, fetch_pool_distribution, fetch_latest_reorg, fetch_xmr_price,
      calculate_withholding_score, max_pool_share_baseline, qubic_share_baseline]
    norm_num [orphan_score, concentration_score, seed_offset]
  · norm_num [orphan_score]
  · norm_num [concentration_score]
  · norm_num [orphan_score, concentration_score]

/-- The pool-distribution endpoint answers 200 with a well-formed body
whose `pools` list is empty; every other source fails. -/
def empty_pools_response : FetchOutcomes :=
  { all_sources_failed with pools := .ok 200 (some []) }

/-- C2: a 200 response carrying an empty `pools` list is returned as the
empty distribution instead of the baseline, and `fetch_all` then dies in
the scorer's `max` (modelled by `none`), so a snapshot with a computable
score is not produced. -/
theorem empty_pools_crash :
    fetch_pool_distribution (.ok 200 (some [])) = ([] : List (String × ℚ)) ∧
    fetch_pool_distribution (.ok 200 (some [])) ≠ baseline_distribution ∧
    calculate_withholding_score 1069 0 [] = none ∧
    fetch_all 1069 empty_pools_response 0 = none := by
  refine ⟨rfl, ?_, rfl, rfl⟩
  simp [fetch_pool_distribution, baseline_distribution]

/-- C4 counterexample: the scenario score 0.8619 exceeds the 0.85 CRITICAL
threshold, so `main` labels it CRITICAL, not HIGH. -/
theorem scenario_tier_is_critical :
    calculate_withholding_score 1069 18 [("SoloPool", 0.45)] = some 0.8619 ∧
    threat_tier 0.8619 = .critical ∧ threat_tier 0.8619 ≠ .high := by
  refine ⟨?_, ?_, ?_⟩
  · norm_num [calculate_withholding_score, max_pool_share, orphan_score,
      concentration_score, seed_offset]
  · norm_num [threat_tier]
  · have h : threat_tier 0.8619 = ThreatTier.critical := by norm_num [threat_tier]
    rw [h]
    decide

/-- C4 amended: on orphan count 18, a single pool at share 0.45 and seed
1069, the components are exactly as specified — orphan 0.9,
concentration 0.75, combined 0.855, seed offset 0.0069, final score
0.8619 — but that score is above 0.85 and therefore in the CRITICAL
tier, not HIGH. -/
theorem scenario_values :
    orphan_score 18 = 0.9 ∧ concentration_score 0.45 = 0.75 ∧
    orphan_score 18 * 0.7 + concentration_score 0.45 * 0.3 = 0.855 ∧
    seed_offset 1069 = 0.0069 ∧
    calculate_withholding_score 1069 18 [("SoloPool", 0.45)] = some 0.8619 ∧
    threat_tier 0.8619 = .critical := by
  refine ⟨?_, ?_, ?_, ?_, ?_, ?_⟩ <;>
    norm_num [orphan_score, concentration_score, seed_offset, threat_tier,
      calculate_withholding_score, max_pool_share]

/-- C6: the watch loop's only handler is `except KeyboardInterrupt`, so a
persistence failure on one tick crashes the loop instead of letting it
continue, while an interrupt stops it cleanly. -/
theorem watch_persist_error_crashes :
    watch_loop [.persistOk, .persistError, .persistOk] = .crashed ∧
    watch_loop [.persistOk, .persistError, .persistOk] ≠ .running ∧
    watch_loop [.persistOk, .interrupted] = .stopped := by
  exact ⟨rfl, by decide, rfl⟩

/-- C7: the withholding scorer is deterministic — identical seed, orphan
count and pool distribution yield the identical result. -/
theorem withholding_score_deterministic (s o : ℤ) (p : List (String × ℚ))
    (s' o' : ℤ) (p' : List (String × ℚ))
    (hs : s = s') (ho : o = o') (hp : p = p') :
    calculate_withholding_score s o p = calculate_withholding_score s' o' p' := by
  subst hs; subst ho; subst hp; rfl

/-- C7 witness: determinism at the concrete scenario input. -/
theorem withholding_score_deterministic_witness :
    calculate_withholding_score 1069 18 [("SoloPool", 0.45)] =
      calculate_withholding_score 1069 18 [("SoloPool", 0.45)] :=
  withholding_score_deterministic 1069 18 [("SoloPool", 0.45)]
    1069 18 [("SoloPool", 0.45)] rfl rfl rfl

end Jetski

namespace Jetski

lemma orphan_score_nonneg {n : ℤ} (h : 0 ≤ n) : 0 ≤ orphan_score n := by
  rw [orphan_score]
  refine le_min (div_nonneg ?_ (by norm_num)) (by norm_num)
  exact_mod_cast h

lemma concentration_score_nonneg (m : ℚ) : 0 ≤ concentration_score m :=
  le_max_left 0 _

lemma seed_offset_nonneg (seed : ℤ) : 0 ≤ seed_offset seed := by
  rw [seed_offset]
  refine div_nonneg ?_ (by norm_num)
  exact_mod_cast Int.emod_nonneg seed (by norm_num)

/-- C3: on any non-empty pool distribution with shares in the unit
interval, any non-negative orphan count and any seed, the scorer
succeeds and its result lies in the unit interval. -/
theorem withholding_score_in_unit_interval (seed orphaned : ℤ)
    (dist : List (String × ℚ)) (hne : dist ≠ [])
    (ho : 0 ≤ orphaned) (hs : ∀ p ∈ dist, 0 ≤ p.2 ∧ p.2 ≤ 1) :
    ∃ q, calculate_withholding_score seed orphaned dist = some q ∧ 0 ≤ q ∧ q ≤ 1 := by
  obtain ⟨p, rest, rfl⟩ : ∃ p rest, dist = p :: rest := by
    cases dist with
    | nil => exact absurd rfl hne
    | cons p rest => exact ⟨p, rest, rfl⟩
  refine ⟨min (orphan_score orphaned * 0.7 +
      concentration_score (rest.foldl (fun m q => max m q.2) p.2) * 0.3 +
      seed_offset seed) 1.0, rfl, ?_,
    le_trans (min_le_right _ _) (by norm_num)⟩
  refine le_min ?_ (by norm_num)
  have h1 : 0 ≤ orphan_score orphaned * 0.7 +
      concentration_score (rest.foldl (fun m q => max m q.2) p.2) * 0.3 :=
    add_nonneg (mul_nonneg (orphan_score_nonneg ho) (by norm_num))
      (mul_nonneg (concentration_score_nonneg _) (by norm_num))
  exact add_nonneg h1 (seed_offset_nonneg seed)

/-- C3 witness: the unit-interval bound at the concrete scenario input. -/
theorem withholding_score_in_unit_interval_witness :
    ∃ q, calculate_withholding_score 1069 18 [("SoloPool", 0.45)] = some q ∧
      0 ≤ q ∧ q ≤ 1 :=
  withholding_score_in_unit_interval 1069 18 [("SoloPool", 0.45)]
    (by simp) (by decide) (by norm_num)

/-- C5: for the two sources with no configured fallback, every failure of
the primary endpoint — exception (timeout, transport error, malformed
body), non-success status, or missing field — yields exactly the kind's
last-resort constant, never an error. -/
theorem fetch_total_on_primary_failure
    (r1 : HttpResult (Option ℤ)) (r2 : HttpResult (Option ℚ))
    (h1 : ∀ s b, r1 = HttpResult.ok s b → s ≠ 200 ∨ b = none)
    (h2 : ∀ s b, r2 = HttpResult.ok s b → s ≠ 200 ∨ b = none) :
    fetch_orphaned_blocks r1 = 0 ∧ fetch_xmr_price r2 = 167.0 := by
  constructor
  · cases r1 with
    | err => rfl
    | ok s b =>
      by_cases hs : s = 200
      · rcases h1 s b rfl with h | h
        · exact absurd hs h
        · subst h; subst hs; rfl
      · simp [fetch_orphaned_blocks, hs]
  · cases r2 with
    | err => rfl
    | ok s b =>
      by_cases hs : s = 200
      · rcases h2 s b rfl with h | h
        · exact absurd hs h
        · subst h; subst hs; rfl
      · simp [fetch_xmr_price, hs]

/-- C5 witness: a raising orphan endpoint and a 404 from the price
endpoint both land on their last-resort constants. -/
theorem fetch_total_on_primary_failure_witness :
    fetch_orphaned_blocks HttpResult.err = 0 ∧
      fetch_xmr_price (HttpResult.ok 404 (some 5)) = 167.0 :=
  fetch_total_on_primary_failure HttpResult.err (HttpResult.ok 404 (some 5))
    (fun s b h => nomatch h)
    (fun s b h => by
      injection h with hs hb
      subst hs
      exact Or.inl (by decide))

/-- C8: in every snapshot `fetch_all` constructs, the Qubic hashrate is
the network hashrate times the share of the first pool-distribution
entry whose name contains "Qubic" as a case-sensitive substring, and
times 0.0 when no entry matches. -/
theorem fetch_all_qubic_hashrate (seed : ℤ) (out : FetchOutcomes) (now : ℚ)
    (d : JetskiTrackerData) (h : fetch_all seed out now = some d) :
    (∀ p, d.pool_distribution.find?
        (fun q => decide ("Qubic".toList <:+: q.1.toList)) = some p →
      d.qubic_hashrate = d.network_hashrate * p.2) ∧
    (d.pool_distribution.find?
        (fun q => decide ("Qubic".toList <:+: q.1.toList)) = none →
      d.qubic_hashrate = d.network_hashrate * 0.0) := by
  rw [fetch_all, Option.map_eq_some'] at h
  obtain ⟨q, hq, hd⟩ := h
  subst hd
  dsimp only
  constructor
  · intro p hp
    rw [qubic_share, hp]
  · intro hp
    rw [qubic_share, hp]

/-- C8 witness: with every source failing, the snapshot's baseline
distribution has "Qubic" as its first matching entry at share 0.15, and
the Qubic hashrate is the network hashrate times 0.15. -/
theorem fetch_all_qubic_hashrate_witness :
    snapshot_all_failed.qubic_hashrate =
      snapshot_all_failed.network_hashrate * (0.15 : ℚ) := by
  have h : fetch_all 1069 all_sources_failed 0 = some snapshot_all_failed := by
    simp [fetch_all, all_sources_failed, fetch_network_hashrate, fallback_hashrate,
      fetch_orphaned_blocks, fetch_pool_distribution, fetch_latest_reorg, fetch_xmr_price,
      calculate_withholding_score, max_pool_share_baseline, qubic_share_baseline,
      snapshot_all_failed]
    norm_num [orphan_score, concentration_score, seed_offset]
  have hfind : snapshot_all_failed.pool_distribution.find?
      (fun q => decide ("Qubic".toList <:+: q.1.toList)) = some ("Qubic", 0.15) := by
    simp +decide [snapshot_all_failed, baseline_distribution, List.find?]
  have hmain := (fetch_all_qubic_hashrate 1069 all_sources_failed 0
    snapshot_all_failed h).1 ("Qubic", 0.15) hfind
  simpa using hmain

/-- C9: a distribution whose maximum share is 1.0 gives a concentration
component of exactly 3.5 — above 1, since that component is never
clamped — while the orphan component saturates at 1.0 from 20 orphans
on. -/
theorem concentration_unclamped (dist : List (String × ℚ)) (m : ℚ)
    (h : max_pool_share dist = some m) (hm : m = 1) (n : ℤ) (hn : 20 ≤ n) :
    concentration_score m = 3.5 ∧ (1 : ℚ) < concentration_score m ∧
      orphan_score n = 1 := by
  subst hm
  have hc : concentration_score 1 = 3.5 := by norm_num [concentration_score]
  refine ⟨hc, by rw [hc]; norm_num, ?_⟩
  have h20 : (20 : ℚ) ≤ (n : ℚ) := by exact_mod_cast hn
  have hdiv : (1.0 : ℚ) ≤ (n : ℚ) / 20.0 := by
    rw [le_div_iff₀ (by norm_num : (0 : ℚ) < 20.0)]
    linarith
  rw [orphan_score, min_eq_right hdiv]
  norm_num

/-- C9 witness: a single pool holding 100% and exactly 20 orphans. -/
theorem concentration_unclamped_witness :
    concentration_score 1 = 3.5 ∧ (1 : ℚ) < concentration_score 1 ∧
      orphan_score 20 = 1 :=
  concentration_unclamped [("MonopolyPool", 1)] 1 rfl rfl 20 (by decide)

/-- C10: for every integer seed, negative ones included, the seed offset
lies in [0, 0.0099], so adding it never decreases the combined score
before the final clamp. -/
theorem seed_offset_bounded (seed : ℤ) :
    0 ≤ seed_offset seed ∧ seed_offset seed ≤ 0.0099 ∧
    ∀ combined : ℚ, combined ≤ combined + seed_offset seed := by
  have h0 : (0 : ℚ) ≤ ((seed % 100 : ℤ) : ℚ) := by
    exact_mod_cast Int.emod_nonneg seed (by norm_num)
  have h99 : ((seed % 100 : ℤ) : ℚ) ≤ 99 := by
    have hle : (seed % 100 : ℤ) ≤ 99 := by omega
    exact_mod_cast hle
  have hnn : 0 ≤ seed_offset seed := seed_offset_nonneg seed
  refine ⟨hnn, ?_, fun c => le_add_of_nonneg_right hnn⟩
  rw [seed_offset, div_le_iff₀ (by norm_num : (0 : ℚ) < 10000.0)]
  calc ((seed % 100 : ℤ) : ℚ) ≤ 99 := h99
    _ ≤ 0.0099 * 10000.0 := by norm_num

end Jetski
